import Mathlib

/-!
Verification of `pdp/data_utils/file_utils.py`.

The module is shallowly embedded: each Python function becomes a Lean
function returning the list of external side effects it performs (an
`Event` trace) together with `none` for a normal return or `some e` for a
raised exception.  External facts the code consults (directory listings,
curl exit statuses, the S3 first-page listing, names allocated by
`tempfile`) are supplied by an `Env` record; the functions themselves are
translated line by line from the source.
-/

namespace FileUtils

/-! ### Path helpers (faithful to `posixpath`) -/

/-- Characters of `os.path.basename`: everything after the last `/`
(`posixpath.basename`: `p[p.rfind('/') + 1:]`). -/
def basenameL (cs : List Char) : List Char :=
  (cs.reverse.takeWhile (fun c => c ≠ '/')).reverse

/-- Characters of `os.path.dirname` (`posixpath.dirname`): everything up to
and including the last `/`, with trailing slashes stripped unless the head
consists solely of slashes. -/
def dirnameL (cs : List Char) : List Char :=
  if (cs.reverse.dropWhile (fun c => c ≠ '/')).all (fun c => c = '/') then
    (cs.reverse.dropWhile (fun c => c ≠ '/')).reverse
  else
    ((cs.reverse.dropWhile (fun c => c ≠ '/')).dropWhile (fun c => c = '/')).reverse

/-- Python `os.path.basename`. -/
def basename (s : String) : String := String.mk (basenameL s.data)

/-- Python `os.path.dirname`. -/
def dirname (s : String) : String := String.mk (dirnameL s.data)

/-- Whether a path starts with `/` (Python `b.startswith('/')`). -/
def startsWithSlash (s : String) : Bool :=
  match s.data with
  | [] => false
  | c :: _ => c = '/'

/-- Whether a path ends with `/` (Python `a.endswith('/')`). -/
def endsWithSlash (s : String) : Bool :=
  match s.data.getLast? with
  | some c => c = '/'
  | none => false

/-- Python `os.path.join` on two components (`posixpath.join`). -/
def joinPath (a b : String) : String :=
  if startsWithSlash b then b
  else if a = "" ∨ endsWithSlash a then a ++ b
  else a ++ "/" ++ b

/-! ### Effects and environment -/

/-- One observable side effect of the Python code. -/
inductive Event where
  /-- Python `os.listdir(dir)` succeeded on `dir`. -/
  | listdir (dir : String)
  /-- Python `download_file(url, …)` was entered (it prints and then acts). -/
  | downloadStart (url : String)
  /-- Python `os.makedirs(dir, exist_ok=True)` on a nonempty `dir`. -/
  | makedirs (dir : String)
  /-- Python `subprocess.call(['curl', url, '--output', out])`, exiting with `exit`. -/
  | curl (url : String) (out : String) (exit : Int)
  /-- Python `s3_client.list_objects_v2(Bucket=bucket, Prefix=pre)`. -/
  | s3List (bucket : String) (pre : String)
  /-- Python `s3_client.upload_file(localPath, bucket, key)`. -/
  | s3Upload (localPath : String) (bucket : String) (key : String)
  /-- Python `os.remove(path)`. -/
  | removeFile (path : String)
  /-- entry of `with tempfile.TemporaryDirectory() as tmp_dir`. -/
  | tmpdirCreate (dir : String)
  /-- teardown of the `TemporaryDirectory` context manager. -/
  | tmpdirRemove (dir : String)
  /-- Python `tempfile.mkdtemp()` returning `dir`. -/
  | mkdtemp (dir : String)
  /-- Python `open(path, 'w')` followed by `f.write(contents)`. -/
  | writeFile (path : String) (contents : String)
  /-- Python `subprocess.call(argv)` for the rclone invocations. -/
  | subprocessCall (argv : List String)
deriving Repr, DecidableEq

/-- The only exception kind the model needs. -/
inductive PyError where
  | fileNotFoundError
deriving Repr, DecidableEq

/-- External state consulted by the code: the filesystem, the network, the
object store and the names `tempfile` allocates. -/
structure Env where
  /-- exit status of `curl` for each URL. -/
  curl_exit : String → Int
  /-- Python `os.listdir` on a directory: `none` when the directory is missing
  (so `os.listdir` raises `FileNotFoundError`). -/
  listdir : String → Option (List String)
  /-- Python `os.path.abspath(os.path.expanduser(·))`. -/
  abspath : String → String
  /-- first page of `list_objects_v2(Bucket, Prefix)`: `some keys` when the
  response carries a `Contents` list with those keys, `none` when the
  `Contents` key is absent. -/
  s3_list : String → String → Option (List String)
  /-- directory name allocated by `tempfile.TemporaryDirectory()`. -/
  tmp_dir : String
  /-- directory name allocated by `tempfile.mkdtemp()`. -/
  mkdtemp_dir : String
  /-- Python `hashlib.md5(bytes).hexdigest()`. -/
  md5 : List Nat → String

/-! ### `download_file` -/

/-- Python `download_file(url, output_path=None)`:

```
if output_path is None:
    output_path = os.path.basename(url)
os.makedirs(os.path.dirname(output_path), exist_ok=True)
subprocess.call(['curl', url, '--output', output_path])
```

`os.makedirs('', exist_ok=True)` raises `FileNotFoundError`, so the call
aborts when the output path has an empty dirname; otherwise the curl exit
status is ignored and the function returns normally. -/
def download_file (env : Env) (url : String) (output_path : Option String) :
    List Event × Option PyError :=
  if dirname (output_path.getD (basename url)) = "" then
    ([Event.downloadStart url], some PyError.fileNotFoundError)
  else
    ([Event.downloadStart url,
      Event.makedirs (dirname (output_path.getD (basename url))),
      Event.curl url (output_path.getD (basename url)) (env.curl_exit url)],
      none)

/-! ### `download_files` -/

/-- The skip-set loop of `download_files`:

```
url_filenames = [os.path.basename(url) for url in urls]
skip_urls = set()
for url, filename in zip(urls, url_filenames):
    if filename in os.listdir(output_dir):
        skip_urls.add(url)
```

`os.listdir` is evaluated inside the loop body, so it runs once per URL and
raises on the first iteration when `output_dir` does not exist; with no URLs
it never runs. -/
def skip_scan (env : Env) (odir : String) :
    List String → List Event × Except PyError (List String)
  | [] => ([], Except.ok [])
  | url :: rest =>
    match env.listdir odir with
    | none => ([Event.listdir odir], Except.error PyError.fileNotFoundError)
    | some listing =>
      let pr := skip_scan env odir rest
      (Event.listdir odir :: pr.1,
        pr.2.map (fun s => if basename url ∈ listing then url :: s else s))

/-- The transfer loop of `download_files`:

```
for url in urls:
    if url not in skip_urls:
        download_file(url)
```

Note the missing second argument: `download_file` is invoked with the
default `output_path`.  An exception from `download_file` propagates and
aborts the remainder of the loop. -/
def dl_loop (env : Env) (skip : List String) :
    List String → List Event × Option PyError
  | [] => ([], none)
  | url :: rest =>
    if url ∈ skip then dl_loop env skip rest
    else
      match download_file env url none with
      | (evs, some e) => (evs, some e)
      | (evs, none) =>
        let r := dl_loop env skip rest
        (evs ++ r.1, r.2)

/-- Python `download_files(urls, *, output_dir, skip_existing=True)`: resolve
`output_dir` (default `'.'`) through `abspath(expanduser(·))`, build the
skip set when `skip_existing`, then run the transfer loop. -/
def download_files (env : Env) (urls : List String) (output_dir : Option String)
    (skip_existing : Bool) : List Event × Option PyError :=
  let odir := env.abspath (output_dir.getD ".")
  if skip_existing then
    let sc := skip_scan env odir urls
    match sc.2 with
    | Except.error e => (sc.1, some e)
    | Except.ok skip =>
      let r := dl_loop env skip urls
      (sc.1 ++ r.1, r.2)
  else
    dl_loop env [] urls

/-! ### `download_files_to_s3` -/

/-- The skip-set computation of `download_files_to_s3`:

```
if skip_existing:
    response = s3_client.list_objects_v2(Bucket=s3_bucket, Prefix=prefix)
    if 'Contents' in response:
        existing_files = {obj['Key'] for obj in response['Contents']}
        skip_urls = {url for url in urls
                     if os.path.join(prefix, os.path.basename(url)) in existing_files}
    else:
        skip_urls = set()
else:
    skip_urls = set()
```

Returns the listing event (when `skip_existing`) and the skip set. -/
def s3_skip (env : Env) (bucket pre : String) (skip_existing : Bool)
    (urls : List String) : List Event × List String :=
  if skip_existing then
    match env.s3_list bucket pre with
    | some keys =>
      ([Event.s3List bucket pre],
        urls.filter (fun u => decide (joinPath pre (basename u) ∈ keys)))
    | none => ([Event.s3List bucket pre], [])
  else ([], [])

/-- The transfer loop of `download_files_to_s3`:

```
for url in urls:
    if url not in skip_urls:
        local_path = os.path.join(tmp_dir, os.path.basename(url))
        download_file(url, local_path)
        s3_client.upload_file(local_path, s3_bucket,
                              os.path.join(prefix, os.path.basename(url)))
        os.remove(local_path)  # delete the file after upload
```

An exception from `download_file` propagates and aborts the remainder. -/
def s3_loop (env : Env) (bucket pre : String) (skip : List String) :
    List String → List Event × Option PyError
  | [] => ([], none)
  | url :: rest =>
    if url ∈ skip then s3_loop env bucket pre skip rest
    else
      let localPath := joinPath env.tmp_dir (basename url)
      match download_file env url (some localPath) with
      | (evs, some e) => (evs, some e)
      | (evs, none) =>
        let r := s3_loop env bucket pre skip rest
        (evs ++ [Event.s3Upload localPath bucket (joinPath pre (basename url)),
                 Event.removeFile localPath] ++ r.1, r.2)

/-- Python `download_files_to_s3(urls, *, s3_client, s3_bucket, prefix,
skip_existing=True)`.  The whole body runs inside
`with tempfile.TemporaryDirectory() as tmp_dir`, whose teardown removes the
scratch directory on every exit path — including when the body raises, so
the teardown event is appended to the trace unconditionally. -/
def download_files_to_s3 (env : Env) (urls : List String) (bucket pre : String)
    (skip_existing : Bool) : List Event × Option PyError :=
  let sc := s3_skip env bucket pre skip_existing urls
  let r := s3_loop env bucket pre sc.2 urls
  (Event.tmpdirCreate env.tmp_dir ::
      (sc.1 ++ r.1 ++ [Event.tmpdirRemove env.tmp_dir]),
    r.2)

/-! ### Hashing -/

/-- A file system for hashing: the bytes of each path, `none` when the file
is missing (so `open(path, 'rb')` raises). -/
def FileBytes := String → Option (List Nat)

/-- Python `get_file_hash(path)`: read the full contents and return
`hashlib.md5(contents).hexdigest()`; raises when the file is missing. -/
def get_file_hash (env : Env) (fs : FileBytes) (path : String) :
    Except PyError String :=
  match fs path with
  | none => Except.error PyError.fileNotFoundError
  | some bytes => Except.ok (env.md5 bytes)

/-- Python `get_file_hashes(paths)`: the list comprehension
`[get_file_hash(path) for path in paths]`, evaluated left to right, where a
raised exception aborts the whole comprehension. -/
def get_file_hashes (env : Env) (fs : FileBytes) :
    List String → Except PyError (List String)
  | [] => Except.ok []
  | p :: ps =>
    match get_file_hash env fs p with
    | Except.error e => Except.error e
    | Except.ok h =>
      match get_file_hashes env fs ps with
      | Except.error e => Except.error e
      | Except.ok rest => Except.ok (h :: rest)

/-! ### Uploaders -/

/-- Python `upload_file(local_path, bucket_path)`: a single rclone `copyto`
invocation; the exit status is ignored. -/
def upload_file (local_path bucket_path : String) : List Event × Option PyError :=
  ([Event.subprocessCall
      ["rclone", "copyto", local_path, "paradigm-data-portal:" ++ bucket_path, "-v"]],
    none)

/-- Python `upload_directory(local_path, bucket_path, *, dir_files,
remove_deleted_files=False)`:

```
action = 'sync' if remove_deleted_files else 'copy'
command = ['rclone', action, local_path, 'paradigm-data-portal:' + bucket_path, '-v']
if dir_files is not None:
    temp_dir = tempfile.mkdtemp()
    temp_path = os.path.join(temp_dir, 'file_list.txt')
    with open(temp_path, 'w') as f:
        f.write('\n'.join(dir_files))
    command.extend(['--files-from', temp_path])
else:
    command.extend(['--exclude', '".*"'])
subprocess.call(command)
```

The `mkdtemp` directory and the file-list file are never removed. -/
def upload_directory (env : Env) (local_path bucket_path : String)
    (dir_files : Option (List String)) (remove_deleted_files : Bool) :
    List Event × Option PyError :=
  let action := if remove_deleted_files then "sync" else "copy"
  let base := ["rclone", action, local_path,
               "paradigm-data-portal:" ++ bucket_path, "-v"]
  match dir_files with
  | some files =>
    let tempPath := joinPath env.mkdtemp_dir "file_list.txt"
    ([Event.mkdtemp env.mkdtemp_dir,
      Event.writeFile tempPath (String.intercalate "\n" files),
      Event.subprocessCall (base ++ ["--files-from", tempPath])], none)
  | none =>
    ([Event.subprocessCall (base ++ ["--exclude", "\".*\""])], none)

/-! ### Temporary-resource accounting -/

/-- Temporary resources a single event creates: the scoped temporary
directory, the `mkdtemp` directory, and files written into a temp
directory.  (Files `curl` writes under the scoped temporary directory are
not counted separately: the directory teardown removes them with it.) -/
def tempCreates : Event → List String
  | Event.tmpdirCreate d => [d]
  | Event.mkdtemp d => [d]
  | Event.writeFile p _ => [p]
  | _ => []

/-- Temporary resources a single event releases. -/
def tempRemoves : Event → List String
  | Event.tmpdirRemove d => [d]
  | Event.removeFile p => [p]
  | _ => []

/-- Temporary resources created during a trace and never released. -/
def survivingTemps (tr : List Event) : List String :=
  (tr.flatMap tempCreates).filter (fun p => decide (p ∉ tr.flatMap tempRemoves))

/-! ### rclone filter globs -/

/-- Modelled from the spec: the external mirroring tool's filter patterns
(spec §6, "optional filters (`exclude <pattern>`)"; rclone itself is not
part of this repository).  In its documented glob syntax `*` matches any
run of non-separator characters and every other character in the patterns
this module passes matches itself literally.  Fuel-indexed so that the
recursion is structural; each step shrinks `ps.length + cs.length`. -/
def globMatchFuel : Nat → List Char → List Char → Bool
  | 0, _, _ => false
  | _ + 1, [], [] => true
  | _ + 1, [], _ :: _ => false
  | n + 1, '*' :: ps2, [] => globMatchFuel n ps2 []
  | n + 1, '*' :: ps2, c :: cs2 =>
    globMatchFuel n ps2 (c :: cs2) ||
      (decide (c ≠ '/') && globMatchFuel n ('*' :: ps2) cs2)
  | _ + 1, _ :: _, [] => false
  | n + 1, p :: ps2, c :: cs2 => decide (p = c) && globMatchFuel n ps2 cs2

/-- Glob matching with enough fuel for the whole pattern and string. -/
def rcloneGlobMatch (ps cs : List Char) : Bool :=
  globMatchFuel (ps.length + cs.length + 1) ps cs

/-! ### Concrete data for witnesses and counterexamples -/

/-- Events of one non-skipped URL in the `download_files_to_s3` transfer
loop: download into the scratch directory, upload to the bucket key, delete
the scratch file. -/
def s3_block (env : Env) (bucket pre url : String) : List Event :=
  [Event.downloadStart url,
   Event.makedirs (dirname (joinPath env.tmp_dir (basename url))),
   Event.curl url (joinPath env.tmp_dir (basename url)) (env.curl_exit url),
   Event.s3Upload (joinPath env.tmp_dir (basename url)) bucket
     (joinPath pre (basename url)),
   Event.removeFile (joinPath env.tmp_dir (basename url))]

/-- A concrete environment: `/tmp/out` exists and is empty, every other
directory is missing, `curl` exits 23 for `http://x/fail.bin` and 0
otherwise, and the S3 listing response carries no `Contents`. -/
def envC : Env where
  curl_exit := fun u => if u = "http://x/fail.bin" then 23 else 0
  listdir := fun d => if d = "/tmp/out" then some [] else none
  abspath := fun s => s
  s3_list := fun _ _ => none
  tmp_dir := "/tmp/scratch"
  mkdtemp_dir := "/tmp/td"
  md5 := fun _ => "d"

/-- A concrete environment whose S3 first-page listing under bucket `b`,
key prefix `p` already contains the key `p/c.bin`. -/
def envC2 : Env where
  curl_exit := fun _ => 0
  listdir := fun _ => none
  abspath := fun s => s
  s3_list := fun b q => if b = "b" ∧ q = "p" then some ["p/c.bin"] else none
  tmp_dir := "/tmp/scratch"
  mkdtemp_dir := "/tmp/td"
  md5 := fun _ => "d"

/-- A file system on which every path exists with empty contents. -/
def fsC : FileBytes := fun _ => some []

/-! ### Helper lemmas -/

/-- A basename never contains a path separator. -/
theorem slash_not_mem_basenameL (cs : List Char) : '/' ∉ basenameL cs := by
  simp only [basenameL, List.mem_reverse]
  intro h
  have h2 := List.mem_takeWhile_imp h
  simp at h2

/-- A basename never contains a path separator (string form). -/
theorem slash_not_mem_basename (s : String) : '/' ∉ (basename s).data :=
  slash_not_mem_basenameL s.data

/-- When a path contains a separator its dirname is nonempty. -/
theorem dirnameL_ne_nil (cs : List Char) (h : '/' ∈ cs) : dirnameL cs ≠ [] := by
  have h1 : cs.reverse.dropWhile (fun c => decide (c ≠ '/')) ≠ [] := by
    intro hnil
    have h2 := (List.dropWhile_eq_nil_iff).mp hnil '/' (List.mem_reverse.mpr h)
    simp at h2
  rw [dirnameL]
  split
  · simpa using h1
  · rename_i hall
    intro hnil
    rw [List.reverse_eq_nil_iff, List.dropWhile_eq_nil_iff] at hnil
    apply hall
    rw [List.all_eq_true]
    exact hnil

/-- When a path contains a separator its dirname is nonempty (string form). -/
theorem dirname_ne_empty_of_slash (s : String) (h : '/' ∈ s.data) :
    dirname s ≠ "" := by
  intro he
  exact dirnameL_ne_nil s.data h (congrArg String.data he)

/-- Joining a nonempty directory with a separator-free component yields a
path with a nonempty dirname. -/
theorem dirname_joinPath_ne_empty (a b : String) (ha : a ≠ "")
    (hb : '/' ∉ b.data) : dirname (joinPath a b) ≠ "" := by
  rw [joinPath]
  split
  · rename_i hsw
    exfalso
    apply hb
    rw [startsWithSlash] at hsw
    cases hbd : b.data with
    | nil => rw [hbd] at hsw; simp at hsw
    | cons c rest =>
      rw [hbd] at hsw
      simp at hsw
      rw [hsw]
      exact List.mem_cons_self _ _
  · split
    · rename_i hor
      apply dirname_ne_empty_of_slash
      rw [String.data_append]
      apply List.mem_append_left
      rcases hor with h0 | h0
      · exact absurd h0 ha
      · rw [endsWithSlash] at h0
        cases hg : a.data.getLast? with
        | none => rw [hg] at h0; simp at h0
        | some c =>
          rw [hg] at h0
          simp at h0
          rw [← h0]
          exact List.mem_of_getLast?_eq_some hg
    · apply dirname_ne_empty_of_slash
      rw [String.data_append, String.data_append]
      simp

/-- Entering `download_file` always records the download start. -/
theorem downloadStart_mem_download_file (env : Env) (url : String)
    (op : Option String) :
    Event.downloadStart url ∈ (download_file env url op).1 := by
  rw [download_file]
  split <;> simp

/-- No `os.listdir` call happens inside `download_file`. -/
theorem listdir_not_mem_download_file (env : Env) (url : String)
    (op : Option String) (d : String) :
    Event.listdir d ∉ (download_file env url op).1 := by
  rw [download_file]
  split <;> simp

/-- No `os.listdir` call happens inside the transfer loop of
`download_files`. -/
theorem listdir_not_mem_dl_loop (env : Env) (skip urls : List String)
    (d : String) :
    Event.listdir d ∉ (dl_loop env skip urls).1 := by
  induction urls with
  | nil => simp [dl_loop]
  | cons url rest ih =>
    rw [dl_loop]
    split
    · exact ih
    · have h2 := listdir_not_mem_download_file env url none d
      rcases hdf : download_file env url none with ⟨evs, err⟩
      rw [hdf] at h2
      cases err with
      | some e => simpa using h2
      | none =>
        simp only [List.mem_append, not_or]
        exact ⟨h2, ih⟩

/-- No S3 listing happens inside `download_file`. -/
theorem s3List_not_mem_download_file (env : Env) (url : String)
    (op : Option String) (b q : String) :
    Event.s3List b q ∉ (download_file env url op).1 := by
  rw [download_file]
  split <;> simp

/-- No S3 listing happens inside the transfer loop of
`download_files_to_s3`. -/
theorem s3List_not_mem_s3_loop (env : Env) (bucket pre : String)
    (skip urls : List String) (b q : String) :
    Event.s3List b q ∉ (s3_loop env bucket pre skip urls).1 := by
  induction urls with
  | nil => simp [s3_loop]
  | cons url rest ih =>
    simp only [s3_loop]
    split
    · exact ih
    · have h2 := s3List_not_mem_download_file env url
        (some (joinPath env.tmp_dir (basename url))) b q
      rcases hdf : download_file env url
          (some (joinPath env.tmp_dir (basename url))) with ⟨evs, err⟩
      rw [hdf] at h2
      cases err with
      | some e => simpa using h2
      | none => simp [List.mem_append, h2, ih]

/-- `download_file` creates no temporary resource of its own. -/
theorem tempCreates_download_file (env : Env) (url : String)
    (op : Option String) :
    ((download_file env url op).1).flatMap tempCreates = [] := by
  rw [download_file]
  split <;> rfl

/-- The transfer loop of `download_files_to_s3` creates no temporary
resource of its own. -/
theorem tempCreates_s3_loop (env : Env) (bucket pre : String)
    (skip urls : List String) :
    ((s3_loop env bucket pre skip urls).1).flatMap tempCreates = [] := by
  induction urls with
  | nil => simp [s3_loop]
  | cons url rest ih =>
    simp only [s3_loop]
    split
    · exact ih
    · have h2 := tempCreates_download_file env url
        (some (joinPath env.tmp_dir (basename url)))
      rcases hdf : download_file env url
          (some (joinPath env.tmp_dir (basename url))) with ⟨evs, err⟩
      rw [hdf] at h2
      cases err with
      | some e => simpa using h2
      | none =>
        simp only [List.flatMap_append, h2, ih]
        rfl

/-- The skip-set computation of `download_files_to_s3` creates no
temporary resource. -/
theorem tempCreates_s3_skip (env : Env) (bucket pre : String) (se : Bool)
    (urls : List String) :
    ((s3_skip env bucket pre se urls).1).flatMap tempCreates = [] := by
  rw [s3_skip]
  split
  · cases h : env.s3_list bucket pre <;> simp [h, tempCreates]
  · rfl

/-- A member of a list contributes a contiguous block to its `flatMap`. -/
theorem flatMap_split {α β : Type} (f : α → List β) {l : List α} {x : α}
    (h : x ∈ l) : ∃ s t, l.flatMap f = s ++ f x ++ t := by
  obtain ⟨s, t, rfl⟩ := List.append_of_mem h
  exact ⟨s.flatMap f, t.flatMap f, by simp⟩

/-- Closed form of the `download_files_to_s3` transfer loop when the
scratch directory name is nonempty: every non-skipped URL contributes its
block of events and the loop returns normally. -/
theorem s3_loop_eq (env : Env) (bucket pre : String) (skip : List String)
    (htmp : env.tmp_dir ≠ "") (urls : List String) :
    s3_loop env bucket pre skip urls =
      ((urls.filter (fun x => decide (x ∉ skip))).flatMap
        (s3_block env bucket pre), none) := by
  induction urls with
  | nil => rfl
  | cons url rest ih =>
    simp only [s3_loop]
    by_cases hm : url ∈ skip
    · rw [if_pos hm, ih, List.filter_cons]
      simp [hm]
    · rw [if_neg hm]
      have hd : dirname (joinPath env.tmp_dir (basename url)) ≠ "" :=
        dirname_joinPath_ne_empty _ _ htmp (slash_not_mem_basename url)
      rw [download_file]
      simp only [Option.getD_some]
      rw [if_neg hd, ih]
      simp [List.filter_cons, hm, s3_block]

/-- The full event trace of `download_files_to_s3` when the scratch
directory name is nonempty. -/
theorem download_files_to_s3_trace (env : Env) (urls : List String)
    (bucket pre : String) (se : Bool) (htmp : env.tmp_dir ≠ "") :
    (download_files_to_s3 env urls bucket pre se).1 =
      Event.tmpdirCreate env.tmp_dir ::
        ((s3_skip env bucket pre se urls).1 ++
          ((urls.filter
            (fun x => decide (x ∉ (s3_skip env bucket pre se urls).2))).flatMap
            (s3_block env bucket pre)) ++
          [Event.tmpdirRemove env.tmp_dir]) := by
  simp [download_files_to_s3,
    s3_loop_eq env bucket pre (s3_skip env bucket pre se urls).2 htmp urls]

/-! ### Claim theorems -/

/-- C1: the claim says `download_files` invokes the single-file downloader
with destination `output_dir/basename(url)`, so the files end up in
`output_dir`.  The code instead calls `download_file(url)` without a
destination, so the target defaults to `basename(url)` in the current
working directory and the call then raises `FileNotFoundError` from
`os.makedirs('')`: against an existing empty `/tmp/out`, the trace holds
only the two skip-check listings and the entry of the first download — no
`makedirs` and no `curl` ever runs, and nothing is written under
`/tmp/out`. -/
theorem download_files_ignores_output_dir :
    download_files envC ["http://x/a.bin", "http://x/b.bin"] (some "/tmp/out")
        true =
      ([Event.listdir "/tmp/out", Event.listdir "/tmp/out",
        Event.downloadStart "http://x/a.bin"],
        some PyError.fileNotFoundError) ∧
    ∀ url out exitc,
      Event.curl url out exitc ∉
        (download_files envC ["http://x/a.bin", "http://x/b.bin"]
          (some "/tmp/out") true).1 := by
  refine ⟨rfl, ?_⟩
  intro url out exitc h
  rw [show download_files envC ["http://x/a.bin", "http://x/b.bin"]
      (some "/tmp/out") true =
      ([Event.listdir "/tmp/out", Event.listdir "/tmp/out",
        Event.downloadStart "http://x/a.bin"],
        some PyError.fileNotFoundError) from rfl] at h
  simp at h

/-- C2: the claim says a failing external fetch is surfaced to the caller.
The code ignores `subprocess.call`'s return value: with `curl` exiting 23
for this URL, `download_file` still returns normally (`none` in the error
component). -/
theorem download_file_ignores_curl_failure :
    download_file envC "http://x/fail.bin" (some "/tmp/out/fail.bin") =
      ([Event.downloadStart "http://x/fail.bin", Event.makedirs "/tmp/out",
        Event.curl "http://x/fail.bin" "/tmp/out/fail.bin" 23], none) ∧
    envC.curl_exit "http://x/fail.bin" ≠ 0 :=
  ⟨rfl, by decide⟩

/-- C3 counterexample: the claim says every local temporary resource is
released on every exit path.  `upload_directory` with an explicit file
list creates a `mkdtemp` directory and a file-list file and never removes
either: both survive the call. -/
theorem upload_directory_leaks_file_list_tmp :
    survivingTemps (upload_directory envC "/data" "bucket/path"
        (some ["a", "b"]) false).1 =
      ["/tmp/td", "/tmp/td/file_list.txt"] ∧
    survivingTemps (upload_directory envC "/data" "bucket/path"
        (some ["a", "b"]) false).1 ≠ [] :=
  ⟨by decide, by decide⟩

/-- C3 as amended: the scratch directory of `download_files_to_s3` is
released unconditionally by the `TemporaryDirectory` context manager on
every exit path, but `upload_directory` with `dir_files` provided leaks
both its `mkdtemp` directory and the file-list file inside it. -/
theorem temp_resources_release_amended :
    (∀ (env : Env) (urls : List String) (bucket pre : String) (se : Bool),
      survivingTemps (download_files_to_s3 env urls bucket pre se).1 = []) ∧
    (∀ (env : Env) (lp bp : String) (files : List String) (rdf : Bool),
      survivingTemps (upload_directory env lp bp (some files) rdf).1 =
        [env.mkdtemp_dir, joinPath env.mkdtemp_dir "file_list.txt"]) := by
  constructor
  · intro env urls bucket pre se
    rw [survivingTemps]
    have hc : ((download_files_to_s3 env urls bucket pre se).1).flatMap
        tempCreates = [env.tmp_dir] := by
      simp only [download_files_to_s3, List.flatMap_cons, List.flatMap_append,
        tempCreates_s3_skip, tempCreates_s3_loop]
      rfl
    rw [hc]
    have hm : env.tmp_dir ∈
        ((download_files_to_s3 env urls bucket pre se).1).flatMap tempRemoves := by
      apply List.mem_flatMap_of_mem (a := Event.tmpdirRemove env.tmp_dir)
      · simp [download_files_to_s3]
      · simp [tempRemoves]
    simp [List.filter, hm]
  · intro env lp bp files rdf
    simp [upload_directory, survivingTemps, tempCreates, tempRemoves]

/-- C4: the claim says the parent-directory-creation step always succeeds,
in particular when `output_path` is omitted.  With the omitted
`output_path` the destination defaults to the URL's basename, whose
dirname is the empty string, and `os.makedirs('', exist_ok=True)` raises
`FileNotFoundError` before any fetch: the call aborts with only the entry
event in its trace. -/
theorem download_file_default_path_makedirs_error :
    download_file envC "http://x/a.bin" none =
      ([Event.downloadStart "http://x/a.bin"],
        some PyError.fileNotFoundError) := rfl

/-- C5: the claim says that with `skip_existing=false` every URL is
attempted.  Because the first `download_file(url)` call raises
`FileNotFoundError` (the omitted output path has an empty dirname), the
loop aborts and the second URL is never attempted even though nothing in
`/tmp/out` matches it. -/
theorem download_files_aborts_after_first_url :
    download_files envC ["http://x/a.bin", "http://x/b.bin"] (some "/tmp/out")
        false =
      ([Event.downloadStart "http://x/a.bin"],
        some PyError.fileNotFoundError) ∧
    Event.downloadStart "http://x/b.bin" ∉
      (download_files envC ["http://x/a.bin", "http://x/b.bin"]
        (some "/tmp/out") false).1 :=
  ⟨rfl, by decide⟩

/-- C6: in `download_files_to_s3` with `skip_existing=true`, a URL is in
the skip set exactly when `os.path.join(prefix, basename(url))` occurs
among the keys of the first-page listing; when the response carries no
`Contents`, the skip set is empty; with `skip_existing=false` the skip set
is empty and no listing call appears in the pipeline's trace at all. -/
theorem download_files_to_s3_skip_spec (env : Env) (urls : List String)
    (bucket pre u : String) :
    (∀ keys, env.s3_list bucket pre = some keys →
      (u ∈ (s3_skip env bucket pre true urls).2 ↔
        u ∈ urls ∧ joinPath pre (basename u) ∈ keys)) ∧
    (env.s3_list bucket pre = none →
      (s3_skip env bucket pre true urls).2 = []) ∧
    (s3_skip env bucket pre false urls).2 = [] ∧
    (∀ b q, Event.s3List b q ∉
      (download_files_to_s3 env urls bucket pre false).1) := by
  refine ⟨?_, ?_, rfl, ?_⟩
  · intro keys h
    simp [s3_skip, h, List.mem_filter]
  · intro h
    simp [s3_skip, h]
  · intro b q
    have hl := s3List_not_mem_s3_loop env bucket pre [] urls b q
    simp [download_files_to_s3, List.mem_append, hl, s3_skip]

/-- C6 witness: with a first-page listing already holding `p/c.bin`, the
single URL is in the skip set; with a listing response lacking `Contents`,
the skip set is empty. -/
theorem download_files_to_s3_skip_spec_witness :
    ("http://x/c.bin" ∈ (s3_skip envC2 "b" "p" true ["http://x/c.bin"]).2 ↔
      "http://x/c.bin" ∈ ["http://x/c.bin"] ∧
        joinPath "p" (basename "http://x/c.bin") ∈ ["p/c.bin"]) ∧
    (s3_skip envC "b" "p" true ["http://x/c.bin"]).2 = [] :=
  ⟨(download_files_to_s3_skip_spec envC2 ["http://x/c.bin"] "b" "p"
      "http://x/c.bin").1 ["p/c.bin"] (by decide),
    (download_files_to_s3_skip_spec envC ["http://x/c.bin"] "b" "p"
      "http://x/c.bin").2.1 rfl⟩

/-- C7: for every non-skipped URL, the pipeline's trace contains the
contiguous block download-into-scratch (`scratch/basename(url)`), upload
to `bucket` at key `prefix/basename(url)`, then deletion of the scratch
file — in that order. -/
theorem download_files_to_s3_pipeline_order (env : Env) (urls : List String)
    (bucket pre url : String) (se : Bool) (htmp : env.tmp_dir ≠ "")
    (hmem : url ∈ urls)
    (hns : url ∉ (s3_skip env bucket pre se urls).2) :
    ∃ s t, (download_files_to_s3 env urls bucket pre se).1 =
      s ++ s3_block env bucket pre url ++ t := by
  have hf : url ∈ urls.filter
      (fun x => decide (x ∉ (s3_skip env bucket pre se urls).2)) :=
    List.mem_filter.mpr ⟨hmem, by simpa using hns⟩
  obtain ⟨s, t, hst⟩ := flatMap_split (s3_block env bucket pre) hf
  refine ⟨Event.tmpdirCreate env.tmp_dir ::
      ((s3_skip env bucket pre se urls).1 ++ s),
    t ++ [Event.tmpdirRemove env.tmp_dir], ?_⟩
  rw [download_files_to_s3_trace env urls bucket pre se htmp, hst]
  simp

/-- C7 witness: one URL, no pre-existing remote object — the pipeline
performs download, upload to `p/c.bin`, then deletion of the scratch
file. -/
theorem download_files_to_s3_pipeline_order_witness :
    ∃ s t, (download_files_to_s3 envC ["http://x/c.bin"] "b" "p" true).1 =
      s ++ s3_block envC "b" "p" "http://x/c.bin" ++ t :=
  download_files_to_s3_pipeline_order envC ["http://x/c.bin"] "b" "p"
    "http://x/c.bin" true (by decide) (by decide) (by decide)

/-- C8: the claim says that without `dir_files` the invocation carries a
filter excluding dotfiles.  The code appends `--exclude` with the literal
pattern `".*"` *including the quote characters* (the argv list is passed
to the tool with no shell), and under the tool's glob semantics that
pattern does not match a dotfile such as `.bashrc` (it matches only names
enclosed in double quotes), while the unquoted pattern `.*` would; with
`dir_files` provided, the invocation carries `--files-from` with the
file-list file holding the newline-joined paths. -/
theorem upload_directory_exclude_pattern_quoted :
    upload_directory envC "/data" "bucket/path" none false =
      ([Event.subprocessCall ["rclone", "copy", "/data",
          "paradigm-data-portal:bucket/path", "-v", "--exclude", "\".*\""]],
        none) ∧
    rcloneGlobMatch "\".*\"".data ".bashrc".data = false ∧
    rcloneGlobMatch ".*".data ".bashrc".data = true ∧
    upload_directory envC "/data" "bucket/path" (some ["a", "b"]) false =
      ([Event.mkdtemp "/tmp/td",
        Event.writeFile "/tmp/td/file_list.txt" "a\nb",
        Event.subprocessCall ["rclone", "copy", "/data",
          "paradigm-data-portal:bucket/path", "-v", "--files-from",
          "/tmp/td/file_list.txt"]], none) :=
  ⟨rfl, by decide, by decide, rfl⟩

/-- C9: when `get_file_hashes` returns, the result has the same length as
the input and its i-th element is `get_file_hash` of the i-th path. -/
theorem get_file_hashes_order_length (env : Env) (fs : FileBytes)
    (paths : List String) (hs : List String)
    (h : get_file_hashes env fs paths = Except.ok hs) :
    hs.length = paths.length ∧
    ∀ (i : Nat) (hi : i < paths.length) (hi2 : i < hs.length),
      get_file_hash env fs (paths.get ⟨i, hi⟩) =
        Except.ok (hs.get ⟨i, hi2⟩) := by
  induction paths generalizing hs with
  | nil =>
    rw [get_file_hashes] at h
    cases h
    exact ⟨rfl, fun i hi => absurd hi (Nat.not_lt_zero i)⟩
  | cons p ps ih =>
    rw [get_file_hashes] at h
    cases hp : get_file_hash env fs p with
    | error e => rw [hp] at h; cases h
    | ok hd =>
      rw [hp] at h
      cases hrest : get_file_hashes env fs ps with
      | error e => rw [hrest] at h; cases h
      | ok tl =>
        rw [hrest] at h
        cases h
        obtain ⟨hlen, helem⟩ := ih tl hrest
        refine ⟨by simp [hlen], ?_⟩
        intro i hi hi2
        cases i with
        | zero => simpa using hp
        | succ n =>
          have hn : n < ps.length := Nat.lt_of_succ_lt_succ hi
          have hn2 : n < tl.length := Nat.lt_of_succ_lt_succ hi2
          simpa using helem n hn hn2

/-- C9 witness: two existing files hash in order. -/
theorem get_file_hashes_order_length_witness :
    (["d", "d"] : List String).length = (["a", "b"] : List String).length ∧
    ∀ (i : Nat) (hi : i < (["a", "b"] : List String).length)
      (hi2 : i < (["d", "d"] : List String).length),
      get_file_hash envC fsC ((["a", "b"] : List String).get ⟨i, hi⟩) =
        Except.ok ((["d", "d"] : List String).get ⟨i, hi2⟩) :=
  get_file_hashes_order_length envC fsC ["a", "b"] ["d", "d"] rfl

/-- C10 counterexample: the claim says every `download_files` call with
`skip_existing=true` and a missing `output_dir` raises during the
existence-check listing.  With an empty URL list the listing never runs
(it sits inside the per-URL loop) and the call returns normally. -/
theorem download_files_missing_dir_empty_urls_no_error :
    download_files envC [] (some "/nope") true = ([], none) ∧
    envC.listdir (envC.abspath "/nope") = none :=
  ⟨rfl, rfl⟩

/-- C10 as amended: with `skip_existing=true`, a missing resolved
`output_dir` and at least one URL, the call raises `FileNotFoundError`
during the first existence-check listing and its trace holds that listing
alone — no download is attempted; with `skip_existing=false` no listing is
ever performed and the transfer loop starts on the first URL regardless of
the directory's existence. -/
theorem download_files_missing_dir_spec (env : Env) (urls : List String)
    (output_dir : Option String) :
    (urls ≠ [] → env.listdir (env.abspath (output_dir.getD ".")) = none →
      download_files env urls output_dir true =
        ([Event.listdir (env.abspath (output_dir.getD "."))],
          some PyError.fileNotFoundError)) ∧
    (∀ d, Event.listdir d ∉ (download_files env urls output_dir false).1) ∧
    (∀ u us, urls = u :: us →
      Event.downloadStart u ∈ (download_files env urls output_dir false).1) := by
  refine ⟨?_, ?_, ?_⟩
  · intro hne hmiss
    cases urls with
    | nil => exact absurd rfl hne
    | cons u us => simp [download_files, skip_scan, hmiss]
  · intro d
    show Event.listdir d ∉ (dl_loop env [] urls).1
    exact listdir_not_mem_dl_loop env [] urls d
  · intro u us hu
    subst hu
    show Event.downloadStart u ∈ (dl_loop env [] (u :: us)).1
    rw [dl_loop, if_neg (List.not_mem_nil u)]
    have h2 := downloadStart_mem_download_file env u none
    rcases hdf : download_file env u none with ⟨evs, err⟩
    rw [hdf] at h2
    cases err with
    | some e => simpa using h2
    | none => simp [h2]

/-- C10 witness: one URL against a missing directory — with
`skip_existing=true` the call stops at the listing; with
`skip_existing=false` the first download is attempted. -/
theorem download_files_missing_dir_spec_witness :
    download_files envC ["http://x/a.bin"] (some "/nope") true =
      ([Event.listdir "/nope"], some PyError.fileNotFoundError) ∧
    Event.downloadStart "http://x/a.bin" ∈
      (download_files envC ["http://x/a.bin"] (some "/nope") false).1 :=
  ⟨(download_files_missing_dir_spec envC ["http://x/a.bin"]
      (some "/nope")).1 (by decide) rfl,
    (download_files_missing_dir_spec envC ["http://x/a.bin"]
      (some "/nope")).2.2 "http://x/a.bin" [] rfl⟩

end FileUtils
